import Mathlib

/-!
Verification of the image-upscaler CLI (`main.py`).

The program is a single linear flow: read a source image file, base64-encode
it, send one prediction request to a remote model, base64-decode the first
prediction's payload, write it next to the source (falling back to the
current working directory), and report statistics.

We embed the program shallowly: the Python functions `upscale_image` and
`parse_args` and the `__main__` block become Lean functions over an explicit
environment (`Env`) supplying the filesystem, the working directory, the
writability oracle, the remote `predict` call, and the PIL image-dimension
decoder.  Library routines used by the program (`base64.b64encode`,
`base64.b64decode`, `os.path.split`, `os.path.splitext`, `os.path.join`)
are translated concretely; ambient OS services (`os.access`, `open`,
`os.path.abspath`, `os.getcwd`, the network) are environment parameters.
Python strings are `List Char`, bytes are `List Nat` (each < 256).
-/

namespace Upscaler

/-! ## Base64 (Python `base64.b64encode` / `b64decode`, standard alphabet) -/

/-- The standard base64 alphabet used by Python's `base64.b64encode`. -/

def b64alphabet : List Char :=
  ("ABCDEFGHIJKLMNOPQRSTUVWXYZabcdefghijklmnopqrstuvwxyz0123456789+/").toList

/-- Character for a 6-bit group (sextet). -/

def b64chr (n : Nat) : Char := b64alphabet.getD n 'A'

def b64ordAux (c : Char) : List Char → Nat → Nat
  | [], _ => 0
  | x :: xs, i => if x = c then i else b64ordAux c xs (i + 1)

/-- Sextet value of an alphabet character (inverse of `b64chr` on the alphabet). -/

def b64ord (c : Char) : Nat := b64ordAux c b64alphabet 0

/-- `base64.b64encode`: groups of 3 bytes become 4 alphabet characters;
a 1- or 2-byte tail is padded with `=`. -/

def b64encodeRaw : List Nat → List Char
  | [] => []
  | [a] => [b64chr (a / 4), b64chr (a % 4 * 16), '=', '=']
  | [a, b] => [b64chr (a / 4), b64chr (a % 4 * 16 + b / 16), b64chr (b % 16 * 4), '=']
  | a :: b :: c :: rest =>
      b64chr (a / 4) :: b64chr (a % 4 * 16 + b / 16) :: b64chr (b % 16 * 4 + c / 64) ::
        b64chr (c % 64) :: b64encodeRaw rest

/-- `base64.b64decode` on well-formed base64 text: each 4-character group
yields 3 bytes, or 1 or 2 bytes for a final group padded with `=`. -/

def b64decodeRaw : List Char → List Nat
  | c0 :: c1 :: c2 :: c3 :: rest =>
      if c2 = '=' then
        [b64ord c0 * 4 + b64ord c1 / 16]
      else if c3 = '=' then
        [b64ord c0 * 4 + b64ord c1 / 16, b64ord c1 % 16 * 16 + b64ord c2 / 4]
      else
        (b64ord c0 * 4 + b64ord c1 / 16) ::
          (b64ord c1 % 16 * 16 + b64ord c2 / 4) ::
            (b64ord c2 % 4 * 64 + b64ord c3) :: b64decodeRaw rest
  | _ => []

/-! ## POSIX path routines (`os.path.split`, `os.path.splitext`, `os.path.join`) -/

/-- Index of the last occurrence of `c` in the list (`str.rfind`), `-1` if absent. -/

def rfindAux (c : Char) : List Char → Int → Int → Int
  | [], _, best => best
  | x :: xs, i, best => rfindAux c xs (i + 1) (if x = c then i else best)

def rfind (c : Char) (l : List Char) : Int := rfindAux c l 0 (-1)

/-- Drop trailing occurrences of `c` (`str.rstrip` with a single character). -/

def dropTrailing (c : Char) (l : List Char) : List Char :=
  (l.reverse.dropWhile (fun x => x = c)).reverse

/-- `os.path.split` (POSIX): split after the last slash; the head keeps no
trailing slashes unless it consists only of slashes. -/

def splitPath (p : List Char) : List Char × List Char :=
  let i := (rfind '/' p + 1).toNat
  let head := p.take i
  let tail := p.drop i
  let head2 := if head ≠ [] ∧ head.any (fun x => x != '/') then dropTrailing '/' head else head
  (head2, tail)

/-- `os.path.splitext` (POSIX): split at the last dot, provided it lies after
the last slash and a non-dot character precedes it within the basename. -/

def splitext (p : List Char) : List Char × List Char :=
  let sepIndex := rfind '/' p
  let dotIndex := rfind '.' p
  if sepIndex < dotIndex then
    let mid := (p.take dotIndex.toNat).drop (sepIndex + 1).toNat
    if mid.any (fun x => x != '.') then (p.take dotIndex.toNat, p.drop dotIndex.toNat)
    else (p, [])
  else (p, [])

/-- `os.path.join` (POSIX) for two components. -/

def joinPath (a b : List Char) : List Char :=
  if b.head? = some '/' then b
  else if a = [] ∨ a.getLast? = some '/' then a ++ b
  else a ++ '/' :: b

/-! ## Data model: request and response dictionaries (`main.py` lines 50-56, 60-69) -/

/-- The inner `image` dictionary of an instance: `{"bytesBase64Encoded": ...}`. -/

structure ImageDict where
  bytesBase64Encoded : List Char
deriving DecidableEq

/-- One request instance: `{"image": {...}}`. -/

structure InstanceDict where
  image : ImageDict
deriving DecidableEq

/-- `{"upscaleFactor": factor}`. -/

structure UpscaleConfig where
  upscaleFactor : List Char
deriving DecidableEq

/-- The request parameters: `{"mode": "upscale", "upscaleConfig": {...}}`. -/

structure ParamsDict where
  mode : List Char
  upscaleConfig : UpscaleConfig
deriving DecidableEq

/-- The full payload handed to `model.predict` (line 61). -/

structure PredictRequest where
  instances : List InstanceDict
  parameters : ParamsDict
deriving DecidableEq

/-- One prediction of the response; the `bytesBase64Encoded` field may be absent. -/

structure Prediction where
  bytesBase64Encoded : Option (List Char)
deriving DecidableEq

/-- The remote response: a list of predictions. -/

structure PredictResponse where
  predictions : List Prediction
deriving DecidableEq

/-- Result of the remote call: a response, or an exception (network, quota, ...). -/

inductive PredictResult where
  | ok (response : PredictResponse)
  | err
deriving DecidableEq

/-- A file visible to `open(path, "rb")`: readable bytes, or a file whose read
raises an exception other than `FileNotFoundError`. -/

inductive FileEntry where
  | readable (bytes : List Nat)
  | unreadable
deriving DecidableEq

/-- Lines printed to standard output (lines 113-116). -/

inductive OutLine where
  | sourceLine (p : List Char)
  | outputLine (p : List Char)
  | sizeLine (n : Nat)
  | dimsLine (w h : Nat)
deriving DecidableEq

/-- Lines printed to the error stream, one constructor per `print(..., file=sys.stderr)`
site (plus the interpreter traceback of an uncaught exception). -/

inductive ErrLine where
  | initError
  | notFound (p : List Char)
  | readError
  | sending (basename factor : List Char)
  | apiNoImage (r : PredictResponse)
  | apiCallError
  | warnNotWritable (d : List Char)
  | savingToCwd (p : List Char)
  | cwdWriteError
  | configError
  | usage
  | pilTraceback
deriving DecidableEq

/-- Environment: the filesystem and the ambient OS / network / library services
the program calls (`os.access`, `open` for writing, `aiplatform.init`,
`model.predict`, `PIL.Image.open(...).size`, `os.path.abspath`, `os.getcwd`). -/

structure Env where
  fs : List (List Char × FileEntry)
  cwd : List Char
  accessW : List Char → Bool
  openWriteOk : List Char → Bool
  initOk : Bool
  predict : PredictRequest → PredictResult
  dims : List Nat → Option (Nat × Nat)
  abspath : List Char → List Char

/-- Observable outcome of one process run: exit status, final filesystem,
the chronological list of completed file writes, the requests sent to the
remote model, and the two output streams. -/

structure Outcome where
  exitCode : Nat
  fs : List (List Char × FileEntry)
  writes : List (List Char × List Nat)
  sent : List PredictRequest
  stdout : List OutLine
  stderr : List ErrLine
deriving DecidableEq

/-- `open(path, "rb")`: look the path up in the filesystem. -/

def lookupFile : List (List Char × FileEntry) → List Char → Option FileEntry
  | [], _ => none
  | (q, e) :: rest, p => if q = p then some e else lookupFile rest p

/-- A completed `open(path, "wb"); write(bytes)`: update the filesystem. -/

def setFile : List (List Char × FileEntry) → List Char → List Nat → List (List Char × FileEntry)
  | [], p, b => [(p, .readable b)]
  | (q, e) :: rest, p, b => if q = p then (p, .readable b) :: rest else (q, e) :: setFile rest p b

/-- `os.path.getsize`. -/

def getsizeFs (fs : List (List Char × FileEntry)) (p : List Char) : Option Nat :=
  match lookupFile fs p with
  | some (.readable b) => some b.length
  | _ => none

/-! ## The program (`main.py`) -/

/-- The placeholder value of `PROJECT_ID` (line 11). -/

def placeholderId : List Char := ("your-gcp-project-id").toList

def x2Chars : List Char := ("x2").toList

def x4Chars : List Char := ("x4").toList

/-- The string `"upscale"` (line 54). -/

def modeUpscale : List Char := ("upscale").toList

/-- The infix `"_upscaled_"` of the output filename (line 79). -/

def upscaledSep : List Char := ("_upscaled_").toList

/-- Lines 50-56: the request dictionary built from the encoded image and factor. -/

def mkRequest (image_bytes : List Nat) (factor : List Char) : PredictRequest :=
  { instances := [{ image := { bytesBase64Encoded := b64encodeRaw image_bytes } }],
    parameters := { mode := modeUpscale, upscaleConfig := { upscaleFactor := factor } } }

/-- Line 79: `f"{filename_base}_upscaled_{factor}{ext}"` for a given source filename. -/

def outputFilenameFor (source_filename factor : List Char) : List Char :=
  (splitext source_filename).1 ++ upscaledSep ++ factor ++ (splitext source_filename).2

/-- Line 82: `source_dir if source_dir else os.getcwd()`. -/

def targetDirFor (cwd source_path : List Char) : List Char :=
  if (splitPath source_path).1 = [] then cwd else (splitPath source_path).1

/-- Line 83: the primary output path `os.path.join(target_dir, output_filename)`. -/

def primaryPathFor (cwd source_path factor : List Char) : List Char :=
  joinPath (targetDirFor cwd source_path) (outputFilenameFor (splitPath source_path).2 factor)

/-- Line 96: the fallback output path `os.path.join(os.getcwd(), output_filename)`. -/

def fallbackPathFor (cwd source_path factor : List Char) : List Char :=
  joinPath cwd (outputFilenameFor (splitPath source_path).2 factor)

/-- Lines 105-116 (step 8): `os.path.getsize`, `PIL.Image.open` on the in-memory
bytes, and the four report lines; an unreadable image is an uncaught exception. -/

def finishRun (env : Env) (fs2 : List (List Char × FileEntry))
    (writes : List (List Char × List Nat)) (sent : List PredictRequest)
    (errs : List ErrLine) (source_path output_path : List Char)
    (upscaled_bytes : List Nat) : Outcome :=
  let file_size := (getsizeFs fs2 output_path).getD 0
  match env.dims upscaled_bytes with
  | none => ⟨1, fs2, writes, sent, [], errs ++ [.pilTraceback]⟩
  | some (w, h) =>
      ⟨0, fs2, writes, sent,
        [.sourceLine (env.abspath source_path), .outputLine (env.abspath output_path),
          .sizeLine file_size, .dimsLine w h], errs⟩

/-- `upscale_image(source_path, factor)` (lines 18-116). -/

def upscale_image (env : Env) (source_path factor : List Char) : Outcome :=
  -- 1. initialize Vertex AI client (lines 25-30)
  if env.initOk then
    -- 3. read and encode the source image (lines 38-47)
    match lookupFile env.fs source_path with
    | none => ⟨1, env.fs, [], [], [], [.notFound source_path]⟩
    | some .unreadable => ⟨1, env.fs, [], [], [], [.readError]⟩
    | some (.readable image_bytes) =>
        -- 4. prepare the API request (lines 50-56)
        let req := mkRequest image_bytes factor
        -- 5. make the API call (lines 59-61); line 59 prints to stderr
        let errs0 : List ErrLine := [.sending (splitPath source_path).2 factor]
        match env.predict req with
        | .err => ⟨1, env.fs, [], [req], [], errs0 ++ [.apiCallError]⟩
        | .ok response =>
            -- 6. decode the response (lines 64-69); `predictions[0]` on an empty
            -- list raises IndexError, caught by the same handler as the call
            match response.predictions with
            | [] => ⟨1, env.fs, [], [req], [], errs0 ++ [.apiCallError]⟩
            | pred0 :: _ =>
                match pred0.bytesBase64Encoded with
                | none => ⟨1, env.fs, [], [req], [], errs0 ++ [.apiNoImage response]⟩
                | some upscaled_base64 =>
                    let upscaled_bytes := b64decodeRaw upscaled_base64
                    -- 7. determine output path (lines 77-83)
                    let target_dir := targetDirFor env.cwd source_path
                    let output_path := primaryPathFor env.cwd source_path factor
                    -- write with fallback (lines 85-103)
                    if env.accessW target_dir && env.openWriteOk output_path then
                      finishRun env (setFile env.fs output_path upscaled_bytes)
                        [(output_path, upscaled_bytes)] [req] errs0
                        source_path output_path upscaled_bytes
                    else
                      let output_path2 := fallbackPathFor env.cwd source_path factor
                      let errs1 := errs0 ++ [.warnNotWritable target_dir, .savingToCwd output_path2]
                      if env.openWriteOk output_path2 then
                        finishRun env (setFile env.fs output_path2 upscaled_bytes)
                          [(output_path2, upscaled_bytes)] [req] errs1
                          source_path output_path2 upscaled_bytes
                      else
                        ⟨1, env.fs, [], [req], [], errs1 ++ [.cwdWriteError]⟩
  else ⟨1, env.fs, [], [], [], [.initError]⟩

/-- `parse_args()` (lines 119-137): two positional arguments, the second
restricted by `choices=['x2', 'x4']`; anything else is an argparse error
(usage text, exit status 2). -/

def parse_args (argv : List (List Char)) : Option (List Char × List Char) :=
  match argv with
  | [source_image, upscale_factor] =>
      if upscale_factor = x2Chars ∨ upscale_factor = x4Chars then
        some (source_image, upscale_factor)
      else none
  | _ => none

/-- The `__main__` block (lines 139-145), with `PROJECT_ID` as the
user-edited configuration constant. -/

def mainProg (env : Env) (project_id : List Char) (argv : List (List Char)) : Outcome :=
  if project_id = placeholderId then ⟨1, env.fs, [], [], [], [.configError]⟩
  else
    match parse_args argv with
    | none => ⟨2, env.fs, [], [], [], [.usage]⟩
    | some (src, factor) => upscale_image env src factor

/-! ## Concrete environments for witnesses -/

def spGood : List Char := ("/d/a.png").toList

def bytesGood : List Nat := [1, 2, 3]

def payloadGood : List Char := b64encodeRaw [10, 20, 30]

def predGood : Prediction := { bytesBase64Encoded := some payloadGood }

def respGood : PredictResponse := { predictions := [predGood] }

def envGood : Env :=
  { fs := [(spGood, .readable bytesGood)], cwd := ("/cwd").toList,
    accessW := fun _ => true, openWriteOk := fun _ => true, initOk := true,
    predict := fun _ => .ok respGood, dims := fun _ => some (2, 2),
    abspath := fun p => p }

def envNoAccess : Env := { envGood with accessW := fun _ => false }

def spBare : List Char := ("img.png").toList

def respEmpty : PredictResponse := { predictions := [] }

def envEmpty : Env :=
  { envGood with fs := [(spBare, .readable bytesGood)], predict := fun _ => .ok respEmpty }

def envMissing : Env := { envGood with fs := [] }

/-! ## Theorems -/

theorem b64ord_b64chr : ∀ n < 64, b64ord (b64chr n) = n := by decide

theorem b64chr_ne_pad : ∀ n < 64, b64chr n ≠ '=' := by decide

/-- Base64 round trip: decoding an encoding recovers the original bytes. -/

theorem b64_roundtrip : ∀ l : List Nat, (∀ b ∈ l, b < 256) →
    b64decodeRaw (b64encodeRaw l) = l
  | [], _ => rfl
  | [a], h => by
      have ha : a < 256 := h a (by simp)
      have h1 : a / 4 < 64 := by omega
      have h2 : a % 4 * 16 < 64 := by omega
      simp only [b64encodeRaw, b64decodeRaw, eq_self_iff_true, if_true,
        b64ord_b64chr _ h1, b64ord_b64chr _ h2]
      simp only [List.cons.injEq, and_true]
      omega
  | [a, b], h => by
      have ha : a < 256 := h a (by simp)
      have hb : b < 256 := h b (by simp)
      have h1 : a / 4 < 64 := by omega
      have h2 : a % 4 * 16 + b / 16 < 64 := by omega
      have h3 : b % 16 * 4 < 64 := by omega
      simp only [b64encodeRaw, b64decodeRaw, b64chr_ne_pad _ h3, eq_self_iff_true,
        if_true, if_false, ite_false, ite_true,
        b64ord_b64chr _ h1, b64ord_b64chr _ h2, b64ord_b64chr _ h3]
      simp only [List.cons.injEq, and_true]
      omega
  | a :: b :: c :: rest, h => by
      have ha : a < 256 := h a (by simp)
      have hb : b < 256 := h b (by simp)
      have hc : c < 256 := h c (by simp)
      have h1 : a / 4 < 64 := by omega
      have h2 : a % 4 * 16 + b / 16 < 64 := by omega
      have h3 : b % 16 * 4 + c / 64 < 64 := by omega
      have h4 : c % 64 < 64 := by omega
      have ih : b64decodeRaw (b64encodeRaw rest) = rest :=
        b64_roundtrip rest (fun x hx => h x (by simp [hx]))
      simp only [b64encodeRaw, b64decodeRaw,
        b64chr_ne_pad _ h3, b64chr_ne_pad _ h4, if_false, ite_false,
        b64ord_b64chr _ h1, b64ord_b64chr _ h2, b64ord_b64chr _ h3, b64ord_b64chr _ h4, ih]
      simp only [List.cons.injEq, and_true]
      refine ⟨by omega, by omega, by omega⟩

theorem rfindAux_not_mem (c : Char) :
    ∀ (l : List Char) (i best : Int), c ∉ l → rfindAux c l i best = best := by
  intro l
  induction l with
  | nil => intro i best _; rfl
  | cons x xs ih =>
      intro i best hmem
      have hx : ¬ x = c := fun hxc => hmem (by simp [hxc])
      simp only [rfindAux, if_neg hx]
      exact ih _ _ (fun hc => hmem (by simp [hc]))

/-- A path without a slash splits into an empty directory and itself. -/

theorem splitPath_no_slash (p : List Char) (h : '/' ∉ p) : splitPath p = ([], p) := by
  have hr : rfind '/' p = -1 := rfindAux_not_mem '/' p 0 (-1) h
  simp [splitPath, hr]

theorem lookupFile_setFile (fs : List (List Char × FileEntry)) (p : List Char) (b : List Nat) :
    lookupFile (setFile fs p b) p = some (.readable b) := by
  induction fs with
  | nil => simp [setFile, lookupFile]
  | cons hd tl ih =>
      obtain ⟨q, e⟩ := hd
      by_cases hq : q = p
      · simp [setFile, lookupFile, hq]
      · simp [setFile, lookupFile, hq, ih]

theorem getsizeFs_setFile (fs : List (List Char × FileEntry)) (p : List Char) (b : List Nat) :
    getsizeFs (setFile fs p b) p = some b.length := by
  simp [getsizeFs, lookupFile_setFile]

/-! ## Run-shape lemmas -/

theorem finishRun_sent (env : Env) (fs2 : List (List Char × FileEntry))
    (ws : List (List Char × List Nat)) (sent : List PredictRequest)
    (errs : List ErrLine) (sp op : List Char) (ub : List Nat) :
    (finishRun env fs2 ws sent errs sp op ub).sent = sent := by
  unfold finishRun
  rcases env.dims ub with _ | ⟨w, h⟩ <;> rfl

/-- Reduction of a fully successful run through the primary write path. -/

theorem run_success (env : Env) (source_path factor : List Char) (image_bytes : List Nat)
    (response : PredictResponse) (pred0 : Prediction) (rest : List Prediction)
    (payload : List Char) (w h : Nat)
    (hinit : env.initOk = true)
    (hread : lookupFile env.fs source_path = some (.readable image_bytes))
    (hpred : env.predict (mkRequest image_bytes factor) = .ok response)
    (hresp : response.predictions = pred0 :: rest)
    (hfield : pred0.bytesBase64Encoded = some payload)
    (hacc : env.accessW (targetDirFor env.cwd source_path) = true)
    (hw : env.openWriteOk (primaryPathFor env.cwd source_path factor) = true)
    (hdims : env.dims (b64decodeRaw payload) = some (w, h)) :
    upscale_image env source_path factor =
      ⟨0,
        setFile env.fs (primaryPathFor env.cwd source_path factor) (b64decodeRaw payload),
        [(primaryPathFor env.cwd source_path factor, b64decodeRaw payload)],
        [mkRequest image_bytes factor],
        [.sourceLine (env.abspath source_path),
          .outputLine (env.abspath (primaryPathFor env.cwd source_path factor)),
          .sizeLine (b64decodeRaw payload).length, .dimsLine w h],
        [.sending (splitPath source_path).2 factor]⟩ := by
  simp only [upscale_image, hinit, if_true, hread, hpred, hresp, hfield, hacc, hw,
    Bool.and_self, finishRun, getsizeFs_setFile, Option.getD_some, hdims]

/-- Reduction of a run whose primary directory check fails but whose fallback
write to the current working directory succeeds. -/

theorem run_fallback (env : Env) (source_path factor : List Char) (image_bytes : List Nat)
    (response : PredictResponse) (pred0 : Prediction) (rest : List Prediction)
    (payload : List Char) (w h : Nat)
    (hinit : env.initOk = true)
    (hread : lookupFile env.fs source_path = some (.readable image_bytes))
    (hpred : env.predict (mkRequest image_bytes factor) = .ok response)
    (hresp : response.predictions = pred0 :: rest)
    (hfield : pred0.bytesBase64Encoded = some payload)
    (hpf : (env.accessW (targetDirFor env.cwd source_path) &&
        env.openWriteOk (primaryPathFor env.cwd source_path factor)) = false)
    (hw2 : env.openWriteOk (fallbackPathFor env.cwd source_path factor) = true)
    (hdims : env.dims (b64decodeRaw payload) = some (w, h)) :
    upscale_image env source_path factor =
      ⟨0,
        setFile env.fs (fallbackPathFor env.cwd source_path factor) (b64decodeRaw payload),
        [(fallbackPathFor env.cwd source_path factor, b64decodeRaw payload)],
        [mkRequest image_bytes factor],
        [.sourceLine (env.abspath source_path),
          .outputLine (env.abspath (fallbackPathFor env.cwd source_path factor)),
          .sizeLine (b64decodeRaw payload).length, .dimsLine w h],
        [.sending (splitPath source_path).2 factor,
          .warnNotWritable (targetDirFor env.cwd source_path),
          .savingToCwd (fallbackPathFor env.cwd source_path factor)]⟩ := by
  simp only [upscale_image, hinit, if_true, hread, hpred, hresp, hfield, hpf, hw2,
    if_false, finishRun, getsizeFs_setFile, Option.getD_some, hdims]
  rfl

/-- Reduction of a run in which both the primary directory check and the
fallback write fail. -/

theorem run_write_fail (env : Env) (source_path factor : List Char) (image_bytes : List Nat)
    (response : PredictResponse) (pred0 : Prediction) (rest : List Prediction)
    (payload : List Char)
    (hinit : env.initOk = true)
    (hread : lookupFile env.fs source_path = some (.readable image_bytes))
    (hpred : env.predict (mkRequest image_bytes factor) = .ok response)
    (hresp : response.predictions = pred0 :: rest)
    (hfield : pred0.bytesBase64Encoded = some payload)
    (hpf : (env.accessW (targetDirFor env.cwd source_path) &&
        env.openWriteOk (primaryPathFor env.cwd source_path factor)) = false)
    (hnw2 : env.openWriteOk (fallbackPathFor env.cwd source_path factor) = false) :
    upscale_image env source_path factor =
      ⟨1, env.fs, [], [mkRequest image_bytes factor], [],
        [.sending (splitPath source_path).2 factor,
          .warnNotWritable (targetDirFor env.cwd source_path),
          .savingToCwd (fallbackPathFor env.cwd source_path factor),
          .cwdWriteError]⟩ := by
  simp only [upscale_image, hinit, if_true, hread, hpred, hresp, hfield, hpf, hnw2,
    if_false]
  rfl

/-! ## Claims -/

/-- C1: for every valid source file and factor, a successful run performs exactly
one file write, whose byte content is exactly the base64-decoding of the
`bytesBase64Encoded` field of `predictions[0]` of the remote response; and the
base64 pair used on the request side satisfies `decode (encode x) = x`. -/

theorem upscale_success_unique_write_roundtrip
    (env : Env) (source_path factor : List Char) (image_bytes : List Nat)
    (response : PredictResponse) (pred0 : Prediction) (rest : List Prediction)
    (payload : List Char) (w h : Nat) (l : List Nat)
    (hinit : env.initOk = true)
    (hread : lookupFile env.fs source_path = some (.readable image_bytes))
    (hpred : env.predict (mkRequest image_bytes factor) = .ok response)
    (hresp : response.predictions = pred0 :: rest)
    (hfield : pred0.bytesBase64Encoded = some payload)
    (hdims : env.dims (b64decodeRaw payload) = some (w, h))
    (hsucc : (upscale_image env source_path factor).exitCode = 0)
    (hl : ∀ b ∈ l, b < 256) :
    (∃ p, (upscale_image env source_path factor).writes = [(p, b64decodeRaw payload)]) ∧
    b64decodeRaw (b64encodeRaw l) = l := by
  refine ⟨?_, b64_roundtrip l hl⟩
  cases hb : env.accessW (targetDirFor env.cwd source_path) &&
      env.openWriteOk (primaryPathFor env.cwd source_path factor) with
  | true =>
      have hacc : env.accessW (targetDirFor env.cwd source_path) = true :=
        (Bool.and_eq_true _ _ |>.mp hb).1
      have hw : env.openWriteOk (primaryPathFor env.cwd source_path factor) = true :=
        (Bool.and_eq_true _ _ |>.mp hb).2
      exact ⟨primaryPathFor env.cwd source_path factor, by
        rw [run_success env source_path factor image_bytes response pred0 rest payload w h
          hinit hread hpred hresp hfield hacc hw hdims]⟩
  | false =>
      cases hw2 : env.openWriteOk (fallbackPathFor env.cwd source_path factor) with
      | true =>
          exact ⟨fallbackPathFor env.cwd source_path factor, by
            rw [run_fallback env source_path factor image_bytes response pred0 rest payload w h
              hinit hread hpred hresp hfield hb hw2 hdims]⟩
      | false =>
          rw [run_write_fail env source_path factor image_bytes response pred0 rest payload
            hinit hread hpred hresp hfield hb hw2] at hsucc
          simp at hsucc

theorem upscale_success_unique_write_roundtrip_witness :
    (∃ p, (upscale_image envGood spGood x2Chars).writes = [(p, b64decodeRaw payloadGood)]) ∧
    b64decodeRaw (b64encodeRaw [0, 255, 77]) = [0, 255, 77] :=
  upscale_success_unique_write_roundtrip envGood spGood x2Chars bytesGood respGood predGood
    [] payloadGood 2 2 [0, 255, 77] rfl rfl rfl rfl rfl rfl (by decide) (by decide)

/-- C2: for a readable source with bytes `B`, the request sent to the remote
model is exactly the single-instance dictionary with `base64(B)` and parameters
`mode = "upscale"`, `upscaleConfig.upscaleFactor = factor`, sent exactly once. -/

theorem request_shape (env : Env) (source_path factor : List Char) (image_bytes : List Nat)
    (hinit : env.initOk = true)
    (hread : lookupFile env.fs source_path = some (.readable image_bytes)) :
    (upscale_image env source_path factor).sent =
      [{ instances := [{ image := { bytesBase64Encoded := b64encodeRaw image_bytes } }],
         parameters := { mode := modeUpscale,
                         upscaleConfig := { upscaleFactor := factor } } }] := by
  simp only [upscale_image, hinit, if_true, hread]
  rcases env.predict (mkRequest image_bytes factor) with ⟨_ | ⟨⟨_ | payload⟩, rest⟩⟩ | _
  · rfl
  · rfl
  · cases hb : env.accessW (targetDirFor env.cwd source_path) &&
        env.openWriteOk (primaryPathFor env.cwd source_path factor) with
    | true => simp [finishRun_sent, mkRequest]
    | false =>
        cases hb2 : env.openWriteOk (fallbackPathFor env.cwd source_path factor) with
        | true => simp [finishRun_sent, mkRequest]
        | false => rfl
  · rfl

theorem request_shape_witness :
    (upscale_image envGood spGood x2Chars).sent =
      [{ instances := [{ image := { bytesBase64Encoded := b64encodeRaw bytesGood } }],
         parameters := { mode := modeUpscale,
                         upscaleConfig := { upscaleFactor := x2Chars } } }] :=
  request_shape envGood spGood x2Chars bytesGood rfl rfl

/-- C3 counterexample: with a response having no predictions, the run exits 1
and writes nothing, but the diagnostic is the generic API-call error from the
caught `IndexError`; no error line carrying the response body is printed, so
the claim that "the absence is reported ... with the response body printed for
diagnosis" fails on this input. -/

theorem empty_predictions_generic_error :
    (upscale_image envEmpty spBare x2Chars).exitCode = 1 ∧
    (upscale_image envEmpty spBare x2Chars).writes = [] ∧
    (upscale_image envEmpty spBare x2Chars).stderr = [.sending spBare x2Chars, .apiCallError] ∧
    ErrLine.apiNoImage respEmpty ∉ (upscale_image envEmpty spBare x2Chars).stderr := by
  decide

/-- C3 (amended): a response with no predictions is fatal (exit non-zero, no
write) but is reported as a generic API-call error, not with the response body;
a first prediction lacking `bytesBase64Encoded` is fatal (exit non-zero, no
write) with the response body printed; and when the first prediction carries
the field, the outcome does not depend on the remaining predictions. -/

theorem missing_prediction_fatal (env : Env) (source_path factor : List Char)
    (image_bytes : List Nat) (response : PredictResponse)
    (hinit : env.initOk = true)
    (hread : lookupFile env.fs source_path = some (.readable image_bytes))
    (hpred : env.predict (mkRequest image_bytes factor) = .ok response) :
    (response.predictions = [] →
      upscale_image env source_path factor =
        ⟨1, env.fs, [], [mkRequest image_bytes factor], [],
          [.sending (splitPath source_path).2 factor, .apiCallError]⟩) ∧
    (∀ pred0 rest, response.predictions = pred0 :: rest →
      pred0.bytesBase64Encoded = none →
      upscale_image env source_path factor =
        ⟨1, env.fs, [], [mkRequest image_bytes factor], [],
          [.sending (splitPath source_path).2 factor, .apiNoImage response]⟩) ∧
    (∀ pred0 payload rest rest2, pred0.bytesBase64Encoded = some payload →
      upscale_image { env with predict := fun _ => .ok ⟨pred0 :: rest⟩ } source_path factor =
        upscale_image { env with predict := fun _ => .ok ⟨pred0 :: rest2⟩ } source_path factor) := by
  refine ⟨?_, ?_, ?_⟩
  · intro h
    simp only [upscale_image, hinit, if_true, hread, hpred, h]
    rfl
  · intro pred0 rest hr hf
    simp only [upscale_image, hinit, if_true, hread, hpred, hr, hf]
    rfl
  · intro pred0 payload rest rest2 hf
    simp only [upscale_image, hinit, if_true, hread, hf]
    rfl

theorem missing_prediction_fatal_witness :
    (respEmpty.predictions = [] →
      upscale_image envEmpty spBare x2Chars =
        ⟨1, envEmpty.fs, [], [mkRequest bytesGood x2Chars], [],
          [.sending (splitPath spBare).2 x2Chars, .apiCallError]⟩) ∧
    (∀ pred0 rest, respEmpty.predictions = pred0 :: rest →
      pred0.bytesBase64Encoded = none →
      upscale_image envEmpty spBare x2Chars =
        ⟨1, envEmpty.fs, [], [mkRequest bytesGood x2Chars], [],
          [.sending (splitPath spBare).2 x2Chars, .apiNoImage respEmpty]⟩) ∧
    (∀ pred0 payload rest rest2, pred0.bytesBase64Encoded = some payload →
      upscale_image { envEmpty with predict := fun _ => .ok ⟨pred0 :: rest⟩ } spBare x2Chars =
        upscale_image { envEmpty with predict := fun _ => .ok ⟨pred0 :: rest2⟩ } spBare x2Chars) :=
  missing_prediction_fatal envEmpty spBare x2Chars bytesGood respEmpty rfl rfl rfl

/-- C4: if the primary target directory is not writable, the program writes the
decoded bytes to the current working directory, warns on the error stream, and
exits 0; if that second write also fails, the run is fatal (exit 1, no write). -/

theorem fallback_write_behavior (env : Env) (source_path factor : List Char)
    (image_bytes : List Nat) (response : PredictResponse) (pred0 : Prediction)
    (rest : List Prediction) (payload : List Char) (w h : Nat)
    (hinit : env.initOk = true)
    (hread : lookupFile env.fs source_path = some (.readable image_bytes))
    (hpred : env.predict (mkRequest image_bytes factor) = .ok response)
    (hresp : response.predictions = pred0 :: rest)
    (hfield : pred0.bytesBase64Encoded = some payload)
    (hnacc : env.accessW (targetDirFor env.cwd source_path) = false)
    (hdims : env.dims (b64decodeRaw payload) = some (w, h)) :
    (env.openWriteOk (fallbackPathFor env.cwd source_path factor) = true →
      (upscale_image env source_path factor).exitCode = 0 ∧
      (upscale_image env source_path factor).writes =
        [(fallbackPathFor env.cwd source_path factor, b64decodeRaw payload)] ∧
      ErrLine.warnNotWritable (targetDirFor env.cwd source_path) ∈
        (upscale_image env source_path factor).stderr) ∧
    (env.openWriteOk (fallbackPathFor env.cwd source_path factor) = false →
      (upscale_image env source_path factor).exitCode = 1 ∧
      (upscale_image env source_path factor).writes = []) := by
  have hpf : (env.accessW (targetDirFor env.cwd source_path) &&
      env.openWriteOk (primaryPathFor env.cwd source_path factor)) = false := by
    rw [hnacc, Bool.false_and]
  constructor
  · intro hw2
    rw [run_fallback env source_path factor image_bytes response pred0 rest payload w h
      hinit hread hpred hresp hfield hpf hw2 hdims]
    exact ⟨rfl, rfl, by simp⟩
  · intro hnw2
    rw [run_write_fail env source_path factor image_bytes response pred0 rest payload
      hinit hread hpred hresp hfield hpf hnw2]
    exact ⟨rfl, rfl⟩

theorem fallback_write_behavior_witness :
    (envNoAccess.openWriteOk (fallbackPathFor envNoAccess.cwd spGood x2Chars) = true →
      (upscale_image envNoAccess spGood x2Chars).exitCode = 0 ∧
      (upscale_image envNoAccess spGood x2Chars).writes =
        [(fallbackPathFor envNoAccess.cwd spGood x2Chars, b64decodeRaw payloadGood)] ∧
      ErrLine.warnNotWritable (targetDirFor envNoAccess.cwd spGood) ∈
        (upscale_image envNoAccess spGood x2Chars).stderr) ∧
    (envNoAccess.openWriteOk (fallbackPathFor envNoAccess.cwd spGood x2Chars) = false →
      (upscale_image envNoAccess spGood x2Chars).exitCode = 1 ∧
      (upscale_image envNoAccess spGood x2Chars).writes = []) :=
  fallback_write_behavior envNoAccess spGood x2Chars bytesGood respGood predGood []
    payloadGood 2 2 rfl rfl rfl rfl rfl rfl rfl

/-- C5: a non-existent source path is fatal: exit 1, a "not found" line on the
error stream, no request sent, no file written; any other read failure of the
source is likewise fatal with the generic read-error diagnostic. -/

theorem source_read_failures (env : Env) (source_path factor : List Char)
    (hinit : env.initOk = true) :
    (lookupFile env.fs source_path = none →
      upscale_image env source_path factor =
        ⟨1, env.fs, [], [], [], [.notFound source_path]⟩) ∧
    (lookupFile env.fs source_path = some .unreadable →
      upscale_image env source_path factor = ⟨1, env.fs, [], [], [], [.readError]⟩) := by
  constructor <;> intro h <;> simp [upscale_image, hinit, h]

theorem source_read_failures_witness :
    (lookupFile envMissing.fs spGood = none →
      upscale_image envMissing spGood x2Chars =
        ⟨1, envMissing.fs, [], [], [], [.notFound spGood]⟩) ∧
    (lookupFile envMissing.fs spGood = some .unreadable →
      upscale_image envMissing spGood x2Chars =
        ⟨1, envMissing.fs, [], [], [], [.readError]⟩) :=
  source_read_failures envMissing spGood x2Chars rfl

/-- C6: the output filename is exactly `{base}_upscaled_{factor}{ext}` with
`base` and `ext` given by `splitext` of the source basename, and, absent
fallback, the file is written into the source file's directory. -/

theorem output_name_and_location (env : Env) (source_path factor : List Char)
    (image_bytes : List Nat) (response : PredictResponse) (pred0 : Prediction)
    (rest : List Prediction) (payload : List Char) (w h : Nat)
    (hinit : env.initOk = true)
    (hread : lookupFile env.fs source_path = some (.readable image_bytes))
    (hpred : env.predict (mkRequest image_bytes factor) = .ok response)
    (hresp : response.predictions = pred0 :: rest)
    (hfield : pred0.bytesBase64Encoded = some payload)
    (hsd : (splitPath source_path).1 ≠ [])
    (hacc : env.accessW (targetDirFor env.cwd source_path) = true)
    (hw : env.openWriteOk (primaryPathFor env.cwd source_path factor) = true)
    (hdims : env.dims (b64decodeRaw payload) = some (w, h)) :
    (upscale_image env source_path factor).writes =
      [(joinPath (splitPath source_path).1
          ((splitext (splitPath source_path).2).1 ++ upscaledSep ++ factor ++
            (splitext (splitPath source_path).2).2),
        b64decodeRaw payload)] := by
  rw [run_success env source_path factor image_bytes response pred0 rest payload w h
    hinit hread hpred hresp hfield hacc hw hdims]
  simp [primaryPathFor, targetDirFor, outputFilenameFor, hsd]

theorem output_name_and_location_witness :
    (upscale_image envGood spGood x2Chars).writes =
      [(joinPath (splitPath spGood).1
          ((splitext (splitPath spGood).2).1 ++ upscaledSep ++ x2Chars ++
            (splitext (splitPath spGood).2).2),
        b64decodeRaw payloadGood)] :=
  output_name_and_location envGood spGood x2Chars bytesGood respGood predGood []
    payloadGood 2 2 rfl rfl rfl rfl rfl (by decide) rfl rfl rfl

/-- C7: on every successful run (exit code 0, primary or fallback write path)
the program prints exactly four stdout lines - absolute source path, absolute
output path, byte size, and width x height - where the reported size equals the
byte length of the file written (looked up from the final filesystem at the
written path) and the dimensions come from decoding the in-memory result bytes. -/

theorem success_report_lines (env : Env) (source_path factor : List Char)
    (image_bytes : List Nat) (response : PredictResponse) (pred0 : Prediction)
    (rest : List Prediction) (payload : List Char) (w h : Nat)
    (hinit : env.initOk = true)
    (hread : lookupFile env.fs source_path = some (.readable image_bytes))
    (hpred : env.predict (mkRequest image_bytes factor) = .ok response)
    (hresp : response.predictions = pred0 :: rest)
    (hfield : pred0.bytesBase64Encoded = some payload)
    (hdims : env.dims (b64decodeRaw payload) = some (w, h))
    (hsucc : (upscale_image env source_path factor).exitCode = 0) :
    ∃ p, (upscale_image env source_path factor).writes = [(p, b64decodeRaw payload)] ∧
      (upscale_image env source_path factor).stdout =
        [.sourceLine (env.abspath source_path), .outputLine (env.abspath p),
          .sizeLine (b64decodeRaw payload).length, .dimsLine w h] ∧
      getsizeFs (upscale_image env source_path factor).fs p =
        some (b64decodeRaw payload).length := by
  cases hb : env.accessW (targetDirFor env.cwd source_path) &&
      env.openWriteOk (primaryPathFor env.cwd source_path factor) with
  | true =>
      have hacc : env.accessW (targetDirFor env.cwd source_path) = true :=
        (Bool.and_eq_true _ _ |>.mp hb).1
      have hw : env.openWriteOk (primaryPathFor env.cwd source_path factor) = true :=
        (Bool.and_eq_true _ _ |>.mp hb).2
      refine ⟨primaryPathFor env.cwd source_path factor, ?_⟩
      rw [run_success env source_path factor image_bytes response pred0 rest payload w h
        hinit hread hpred hresp hfield hacc hw hdims]
      exact ⟨rfl, rfl, getsizeFs_setFile env.fs _ _⟩
  | false =>
      cases hw2 : env.openWriteOk (fallbackPathFor env.cwd source_path factor) with
      | true =>
          refine ⟨fallbackPathFor env.cwd source_path factor, ?_⟩
          rw [run_fallback env source_path factor image_bytes response pred0 rest payload w h
            hinit hread hpred hresp hfield hb hw2 hdims]
          exact ⟨rfl, rfl, getsizeFs_setFile env.fs _ _⟩
      | false =>
          rw [run_write_fail env source_path factor image_bytes response pred0 rest payload
            hinit hread hpred hresp hfield hb hw2] at hsucc
          simp at hsucc

theorem success_report_lines_witness :
    ∃ p, (upscale_image envGood spGood x2Chars).writes = [(p, b64decodeRaw payloadGood)] ∧
      (upscale_image envGood spGood x2Chars).stdout =
        [.sourceLine (envGood.abspath spGood), .outputLine (envGood.abspath p),
          .sizeLine (b64decodeRaw payloadGood).length, .dimsLine 2 2] ∧
      getsizeFs (upscale_image envGood spGood x2Chars).fs p =
        some (b64decodeRaw payloadGood).length :=
  success_report_lines envGood spGood x2Chars bytesGood respGood predGood []
    payloadGood 2 2 rfl rfl rfl rfl rfl rfl (by decide)

/-- C8: with the configuration set, an upscale factor outside `x2`/`x4` is
rejected by argument parsing: exit status 2, usage text on the error stream,
and no request sent, no file read or written, nothing on stdout. -/

theorem invalid_factor_rejected (env : Env) (project_id src factor : List Char)
    (hpid : project_id ≠ placeholderId)
    (h2 : factor ≠ x2Chars) (h4 : factor ≠ x4Chars) :
    mainProg env project_id [src, factor] = ⟨2, env.fs, [], [], [], [.usage]⟩ := by
  simp [mainProg, parse_args, hpid, h2, h4]

theorem invalid_factor_rejected_witness :
    mainProg envGood (("my-project").toList) [spGood, ("x3").toList] =
      ⟨2, envGood.fs, [], [], [], [.usage]⟩ :=
  invalid_factor_rejected envGood (("my-project").toList) spGood (("x3").toList)
    (by decide) (by decide) (by decide)

/-- C9: for a bare filename (no directory component) the primary target
directory is the current working directory, so the primary and fallback write
targets coincide. -/

theorem bare_filename_targets_cwd (cwd source_path factor : List Char)
    (h : '/' ∉ source_path) :
    targetDirFor cwd source_path = cwd ∧
    primaryPathFor cwd source_path factor = fallbackPathFor cwd source_path factor := by
  have hs := splitPath_no_slash source_path h
  constructor
  · simp [targetDirFor, hs]
  · simp [primaryPathFor, fallbackPathFor, targetDirFor, hs]

theorem bare_filename_targets_cwd_witness :
    targetDirFor envGood.cwd spBare = envGood.cwd ∧
    primaryPathFor envGood.cwd spBare x2Chars = fallbackPathFor envGood.cwd spBare x2Chars :=
  bare_filename_targets_cwd envGood.cwd spBare x2Chars (by decide)

/-- C10: with `PROJECT_ID` left at its placeholder, the process exits 1 with
the configuration diagnostic for every argument vector, before argument
validation and before any file, network, or stdout activity. -/

theorem placeholder_config_checked_first (env : Env) (argv : List (List Char)) :
    mainProg env placeholderId argv = ⟨1, env.fs, [], [], [], [.configError]⟩ := by
  simp [mainProg]

end Upscaler
